import Mathlib

/-!
Shallow embedding of the GeoLead browser extension's game-result extractor
(`geoguessr_content.js`) and import-payload builder (`geolead_content.js`).

JavaScript values parsed from the page's embedded JSON blob are modelled by
`JSVal`: `undef` is JavaScript `undefined` (the result of reading a missing
object property), `null` is JSON null, numbers are exact rationals (JSON
numbers; IEEE rounding, `NaN` and `Infinity` are not modelled — JSON.parse
yields finite values on the inputs the extension sees), and objects are
association lists of string keys.

JavaScript operators used by the source are embedded faithfully:
`jsOr` is `||` (first truthy operand), `jsCoalesce` is `??` (first
non-nullish operand), `optChain` is `?.`, `JSVal.truthy` is JS truthiness
(`undefined`, `null`, `false`, `0`, `""` are falsy; every array and object
is truthy). Reading a property of a non-object yields `undefined`; in real
JS a read on `null`/`undefined` throws instead, so theorems about code
paths that perform such unguarded reads carry non-nullish hypotheses.
-/

namespace Geolead

/-- A JavaScript value as seen by the extension after `JSON.parse`, plus
`undef` for reads of absent properties. -/
inductive JSVal where
  | undefined : JSVal
  | null : JSVal
  | bool : Bool → JSVal
  | num : ℚ → JSVal
  | str : String → JSVal
  | arr : List JSVal → JSVal
  | obj : List (String × JSVal) → JSVal

namespace JSVal

/-- JS truthiness: `undefined`, `null`, `false`, `0` and `""` are falsy;
arrays and objects (even empty ones) are truthy. -/
def truthy : JSVal → Bool
  | .undefined => false
  | .null => false
  | .bool b => b
  | .num q => q != 0
  | .str s => s != ""
  | .arr _ => true
  | .obj _ => true

/-- Nullish (`== null` loosely): `undefined` or `null`. -/
def isNullish : JSVal → Bool
  | .undefined => true
  | .null => true
  | _ => false

/-- Property read `v.k`: on an object, the (first, and in our built objects
unique) binding for `k`, else `undefined`; on any non-object, `undefined`.
(Real JS throws on a `null`/`undefined` receiver; theorems about unguarded
reads hypothesize a non-nullish receiver.) -/
def getField : JSVal → String → JSVal
  | .obj fs, k => ((fs.lookup k).getD .undefined)
  | _, _ => .undefined

/-- Array index `v[i]`: the element when `v` is an array and `i` in range,
else `undefined`. -/
def idx : JSVal → Nat → JSVal
  | .arr xs, i => (xs.get? i).getD .undefined
  | _, _ => .undefined

/-- Whether the value is a number (`typeof v === "number"`; all modelled
numbers are finite). -/
def isNumber : JSVal → Bool
  | .num _ => true
  | _ => false

end JSVal

/-- JS `a || b`: `a` when truthy, else `b`. -/
def jsOr (a b : JSVal) : JSVal := if a.truthy then a else b

/-- JS `a && b`: `b` when `a` truthy, else `a`. -/
def jsAnd (a b : JSVal) : JSVal := if a.truthy then b else a

/-- JS `a ?? b`: `a` unless nullish, else `b`. -/
def jsCoalesce (a b : JSVal) : JSVal := if a.isNullish then b else a

/-- JS `a?.k`: `undefined` when `a` is nullish, else the property read. -/
def optChain (a : JSVal) (k : String) : JSVal :=
  if a.isNullish then .undefined else a.getField k

/-- JS ToString of a number. Integers print as in JS; a non-integer whose
denominator divides a power of ten prints as its exact decimal expansion
with no trailing zeros — every double (hence every `JSON.parse` result) is
a dyadic rational with denominator at most `2 ^ 1074`, so the bounded
search always succeeds on values the program can see, and for short
literals the exact expansion coincides with the shortest round-trip string
JS prints. Not modelled: the exponential notation JS switches to for
magnitudes at least `1e21` or below `1e-6`, and rationals outside the
double range (the fallback branch), which no parsed input produces. -/
def jsNumToString (q : ℚ) : String :=
  if q.den = 1 then toString q.num
  else
    match (List.range 1100).find? (fun m => q.den ∣ 10 ^ m) with
    | none => toString q.num ++ "/" ++ toString q.den
    | some m =>
      let scaled := q.num.natAbs * (10 ^ m / q.den)
      let digits := toString scaled
      let digits :=
        if digits.length ≤ m then
          String.mk (List.replicate (m + 1 - digits.length) '0') ++ digits
        else digits
      (if q.num < 0 then "-" else "") ++ digits.dropRight m ++ "." ++ digits.takeRight m

mutual

/-- JS ToString as used for property keys and string concatenation:
numbers per `jsNumToString`, arrays join their elements with `","`
(`Array.prototype.toString`), plain objects print `"[object Object]"`. -/
def jsToString : JSVal → String
  | .undefined => "undefined"
  | .null => "null"
  | .bool b => if b then "true" else "false"
  | .num q => jsNumToString q
  | .str s => s
  | .arr xs => jsArrJoin xs
  | .obj _ => "[object Object]"

/-- `Array.prototype.join(",")` over the stringified elements. -/
def jsArrJoin : List JSVal → String
  | [] => ""
  | [x] => jsElemToString x
  | x :: xs => jsElemToString x ++ "," ++ jsArrJoin xs

/-- An array element under `join`: `null` and `undefined` print empty,
everything else as `jsToString`. -/
def jsElemToString : JSVal → String
  | .undefined => ""
  | .null => ""
  | .bool b => if b then "true" else "false"
  | .num q => jsNumToString q
  | .str s => s
  | .arr xs => jsArrJoin xs
  | .obj _ => "[object Object]"

end

/-- The number of a JSVal when it is one (`typeof v === "number"` guard). -/
def asNum : JSVal → Option ℚ
  | .num q => some q
  | _ => none

/-! ## geolead_content.js : buildImportPayload -/

/-- One round of the wire payload built by `buildImportPayload`. The source
emits `score` always as a number (non-numbers coerced to 0) and the other
five fields as a number or `null`, so they are typed `ℚ` and `Option ℚ`. -/
structure PayloadRound where
  score : ℚ
  distance_m : Option ℚ
  guess_lat : Option ℚ
  guess_lng : Option ℚ
  target_lat : Option ℚ
  target_lng : Option ℚ
deriving Repr, DecidableEq

/-- The wire payload of `buildImportPayload`. `game_id` keeps the loose
typing of the source (`summary.dailyQuizId || summary.quizId ||
summary.token || null`). -/
structure ImportPayload where
  player_name : String
  board_slug : String
  total_score : ℚ
  total_distance_m : ℚ
  game_id : JSVal
  rounds : List PayloadRound

/-- `Array.isArray(summary.rounds) ? summary.rounds : []`. -/
def roundsSource (summary : JSVal) : List JSVal :=
  match summary.getField "rounds" with
  | .arr rs => rs
  | _ => []

/-- The per-round mapper inside `buildImportPayload`:
`score` is `typeof r.score === "number" ? r.score : 0`, the others are
`typeof x === "number" ? x : null`, with `guess`/`correct` defaulted to
`{}` by `||` first. -/
def buildPayloadRound (r : JSVal) : PayloadRound :=
  let score : ℚ := (asNum (r.getField "score")).getD 0
  let dist := asNum (r.getField "distance_m")
  let guess := jsOr (r.getField "guess") (.obj [])
  let correct := jsOr (r.getField "correct") (.obj [])
  { score := score
    distance_m := dist
    guess_lat := asNum (guess.getField "lat")
    guess_lng := asNum (guess.getField "lng")
    target_lat := asNum (correct.getField "lat")
    target_lng := asNum (correct.getField "lng") }

/-- `buildImportPayload(summary, playerName, boardSlug)` from
`geolead_content.js`. The `reduce` fallbacks are folds over the already
mapped rounds; `r.score || 0` on a number equals that number (0 stays 0)
and `r.distance_m || 0` turns `null` into 0, embedded by `Option.getD`. -/
def buildImportPayload (summary : JSVal) (playerName boardSlug : String) :
    ImportPayload :=
  let rounds := (roundsSource summary).map buildPayloadRound
  let totalScore : ℚ :=
    match asNum (summary.getField "total_score") with
    | some q => q
    | none => rounds.foldl (fun acc r => acc + r.score) 0
  let totalDistance : ℚ :=
    match asNum (summary.getField "total_distance_m") with
    | some q => q
    | none => rounds.foldl (fun acc r => acc + (r.distance_m.getD 0)) 0
  { player_name := playerName
    board_slug := boardSlug
    total_score := totalScore
    total_distance_m := totalDistance
    game_id :=
      jsOr (summary.getField "dailyQuizId")
        (jsOr (summary.getField "quizId")
          (jsOr (summary.getField "token") .null))
    rounds := rounds }

/-! ## geoguessr_content.js : summaries -/

/-- The `map` subobject of a classic summary. -/
structure MapOut where
  id : JSVal
  name : JSVal
  slug : JSVal
  image : JSVal

/-- One entry of a summary's `rounds` list. `correct: {lat, lng}` is split
into two fields; `guess` is `none` for the literal `null` and
`some (lat, lng)` for the `{lat, lng}` object. Fields keep the loose
typing of the source. -/
structure RoundOut where
  round : JSVal
  distance_m : JSVal
  distance_km : JSVal
  score : JSVal
  correct_lat : JSVal
  correct_lng : JSVal
  guess : Option (JSVal × JSVal)

/-- Output of `buildClassicSummary`; `source` and `mode` carry the literal
strings of the source. -/
structure ClassicSummary where
  source : String
  mode : String
  token : JSVal
  user : JSVal
  map : MapOut
  total_score : JSVal
  rounds : List RoundOut

/-- Output of `buildDailyQuizSummary`. -/
structure QuizSummary where
  source : String
  mode : String
  dailyQuizId : JSVal
  quizId : JSVal
  user : JSVal
  total_score : JSVal
  max_score : JSVal
  total_rounds : JSVal
  rounds : List RoundOut

/-- View a value that the source is about to use as an array (`.slice`,
`.map`, `for..of`). A truthy non-array would make the real code throw a
TypeError; it is modelled as the empty list, and every theorem whose input
could reach that case hypothesizes an actual array. -/
def asArrList : JSVal → List JSVal
  | .arr xs => xs
  | _ => []

/-- `Array.prototype.slice(0, e)`: for a numeric `e`, truncate toward zero,
count from the end when negative, clamp to the array bounds. A non-numeric
`e` (JS would coerce it with ToNumber) is modelled as an empty slice; the
theorems only exercise numeric round counts, which is all the extractor
produces on real states. -/
def jsSliceEnd (xs : List JSVal) (e : JSVal) : List JSVal :=
  match e with
  | .num q =>
    let t : Int := if q < 0 then ⌈q⌉ else ⌊q⌋
    let n : Int := if t < 0 then max ((xs.length : Int) + t) 0 else min t (xs.length : Int)
    xs.take n.toNat
  | _ => []

/-- `List` analogue of `Array.prototype.map((x, i) => f x i)`, carrying the
start index explicitly so that induction goes through position by position. -/
def mapIdxFrom {α β : Type} (f : α → Nat → β) : List α → Nat → List β
  | [], _ => []
  | x :: xs, i => f x i :: mapIdxFrom f xs (i + 1)

/-- The guess selected for one classic round:
`(rnd.guesses || [])[0] || rnd.guess || null`. -/
def classicGuessOf (rnd : JSVal) : JSVal :=
  jsOr ((jsOr (rnd.getField "guesses") (.arr [])).idx 0)
    (jsOr (rnd.getField "guess") .null)

/-- The per-round mapper of `buildClassicSummary` (`rnd` at index `i`):
the selected guess, then `??`-chains over the historical field names for
distance and score, with no numeric check except for `distance_km`. -/
def classicRound (rnd : JSVal) (i : Nat) : RoundOut :=
  let guess := classicGuessOf rnd
  let distance := jsCoalesce (optChain guess "distanceInMeters")
    (jsCoalesce (optChain guess "distance")
      (jsCoalesce (rnd.getField "distanceInMeters") .null))
  let score := jsCoalesce (optChain guess "roundScoreInPoints")
    (jsCoalesce (optChain guess "scoreInPoints")
      (jsCoalesce (rnd.getField "roundScoreInPoints") .null))
  { round := .num (i + 1)
    distance_m := distance
    distance_km := match distance with | .num q => .num (q / 1000) | _ => .null
    score := score
    correct_lat := rnd.getField "lat"
    correct_lng := rnd.getField "lng"
    guess := if guess.truthy then some (guess.getField "lat", guess.getField "lng") else none }

/-- `buildClassicSummary(game, user)` from `geoguessr_content.js`. -/
def buildClassicSummary (game user : JSVal) : ClassicSummary :=
  let map := jsOr (game.getField "map")
    (jsOr (optChain (game.getField "challenge") "map") (.obj []))
  let mapImage := jsOr (map.getField "coverUrl")
    (jsOr (map.getField "thumbnailUrl") (jsOr (map.getField "imageUrl") .null))
  let players := jsOr (game.getField "players")
    (if (game.getField "player").truthy then .arr [game.getField "player"] else .arr [])
  let myPlayer := jsOr (players.idx 0) .null
  let totalScore := jsCoalesce (optChain (optChain myPlayer "totalScore") "amount")
    (jsCoalesce (optChain myPlayer "totalScore")
      (jsCoalesce (optChain myPlayer "score") .null))
  let rounds := asArrList (jsOr (game.getField "rounds") (.arr []))
  let currentRoundNumber := jsOr (game.getField "currentRoundNumber")
    (jsOr (game.getField "round") (.num rounds.length))
  { source := "geoguessr"
    mode := "classic"
    token := jsOr (game.getField "token") .null
    user := user
    map := { id := jsOr (map.getField "id") .null
             name := jsOr (map.getField "name") .null
             slug := jsOr (map.getField "slug") .null
             image := mapImage }
    total_score := totalScore
    rounds := mapIdxFrom classicRound (jsSliceEnd rounds currentRoundNumber) 0 }

/-- The `guessByRound` lookup of `buildDailyQuizSummary`: for each truthy
guess whose `roundNumber` is not nullish, bind the key
`ToString(roundNumber)` to the guess. JS assignment overwrites, so later
guesses win: bindings are prepended and `List.lookup` takes the first. -/
def guessMapOf (guesses : List JSVal) : List (String × JSVal) :=
  guesses.foldl
    (fun m g =>
      if g.truthy && !(g.getField "roundNumber").isNullish then
        (jsToString (g.getField "roundNumber"), g) :: m
      else m)
    []

/-- The guard `typeof v === "number" ? v : null` used for the quiz
round's distance and score reads. -/
def numOrNull (v : JSVal) : JSVal :=
  match v with
  | .num q => .num q
  | _ => .null

/-- The guess the quiz lookup yields for round `r` at index `i`:
`guessByRound[r.roundNumber ?? i + 1] || null` (JS coerces the key to a
string). -/
def quizGuessOf (guessMap : List (String × JSVal)) (r : JSVal) (i : Nat) : JSVal :=
  jsOr ((guessMap.lookup (jsToString
    (jsCoalesce (r.getField "roundNumber") (.num (i + 1))))).getD .undefined) .null

/-- The per-round mapper of `buildDailyQuizSummary` (`r` at index `idx`):
round number is `r.roundNumber ?? idx + 1`, the guess comes from the
lookup (`|| null`), target coordinates from the nested panorama payload,
and distance/score pass only under a `typeof === "number"` guard. -/
def quizRound (guessMap : List (String × JSVal)) (r : JSVal) (i : Nat) : RoundOut :=
  let roundNumber := jsCoalesce (r.getField "roundNumber") (.num (i + 1))
  let guess := quizGuessOf guessMap r i
  let pano := jsOr
    (optChain (optChain (r.getField "question") "panoramaQuestionPayload") "panorama")
    (.obj [])
  let distance := numOrNull (optChain guess "distance")
  let score := numOrNull (optChain guess "score")
  { round := roundNumber
    distance_m := distance
    distance_km := match distance with | .num q => .num (q / 1000) | _ => .null
    score := score
    correct_lat := pano.getField "lat"
    correct_lng := pano.getField "lng"
    guess := if guess.truthy then some (guess.getField "lat", guess.getField "lng") else none }

/-- `buildDailyQuizSummary(quizGame, user, dailyQuizId)` from
`geoguessr_content.js`. -/
def buildDailyQuizSummary (quizGame user dailyQuizId : JSVal) : QuizSummary :=
  let guesses := asArrList (jsOr (quizGame.getField "guesses") (.arr []))
  let rounds := asArrList (jsOr (quizGame.getField "rounds") (.arr []))
  let guessMap := guessMapOf guesses
  { source := "geoguessr"
    mode := "daily-quiz"
    dailyQuizId := jsOr dailyQuizId .null
    quizId := jsOr (quizGame.getField "quizId") .null
    user := user
    total_score := jsCoalesce (quizGame.getField "totalScore") .null
    max_score := jsCoalesce (quizGame.getField "maxScore") .null
    total_rounds := jsCoalesce (quizGame.getField "totalRounds")
      (jsCoalesce (.num rounds.length) .null)
    rounds := mapIdxFrom (quizRound guessMap) rounds 0 }

/-! ## geoguessr_content.js : extraction pipeline and change detector -/

/-- The classification result of `extractFromNextData`: mode tag, game
object, best-effort user, and (for the quiz branch) the daily-quiz id. In
the classic branch the source never sets `dailyQuizId`, so reading it
yields `undefined`. -/
structure Extracted where
  type : String
  dailyQuizId : JSVal
  game : JSVal
  user : JSVal

/-- `data.props || {}` — computed identically at the top of
`extractFromNextData` and of the observer's `update` closure. -/
def propsOf (data : JSVal) : JSVal := jsOr (data.getField "props") (.obj [])

/-- `props.pageProps || {}`, likewise shared by both call sites. -/
def pagePropsOf (data : JSVal) : JSVal :=
  jsOr ((propsOf data).getField "pageProps") (.obj [])

/-- The classic-game candidate `pageProps.game || (pageProps.data &&
pageProps.data.game)` (before each call site's own final `|| null` /
`|| {}` fallback). -/
def classicCandidate (data : JSVal) : JSVal :=
  jsOr ((pagePropsOf data).getField "game")
    (jsAnd ((pagePropsOf data).getField "data")
      (((pagePropsOf data).getField "data").getField "game"))

/-- The `user` object assembled by `extractFromNextData` from
`props.accountProps.account.user`, every field best-effort. -/
def userOf (data : JSVal) : JSVal :=
  let accountProps := jsOr ((propsOf data).getField "accountProps") (.obj [])
  let account := jsOr (accountProps.getField "account") (.obj [])
  let userRaw := jsOr (account.getField "user") (.obj [])
  .obj
    [("id", jsOr (userRaw.getField "userId") (jsOr (userRaw.getField "id") .null)),
     ("nick", jsOr (userRaw.getField "nick") .null),
     ("email", jsOr (account.getField "email") .null),
     ("countryCode", jsOr (userRaw.getField "countryCode") .null)]

/-- The classification core of `extractFromNextData`, applied to an
already-parsed non-null blob: quiz game first, else classic game at either
nesting (`pageProps.game` or `pageProps.data.game`), else `none`
("no game", logged but not an error). -/
def extractFromData (data : JSVal) : Option Extracted :=
  let pageProps := pagePropsOf data
  let user := userOf data
  let classicGame := jsOr (classicCandidate data) .null
  let quizGame := jsOr (pageProps.getField "quizGame") .null
  if quizGame.truthy then
    some { type := "daily-quiz"
           dailyQuizId := jsOr (pageProps.getField "dailyQuizId") .null
           game := quizGame
           user := user }
  else if classicGame.truthy then
    some { type := "classic", dailyQuizId := .undefined, game := classicGame, user := user }
  else none

/-- Abstract state of the `__NEXT_DATA__` element: `none` — the element is
missing from the document; `some none` — the element exists but its text
is malformed (`JSON.parse` throws); `some (some v)` — the text parses to
`v` (the `textContent || innerText || "{}"` defaulting is folded into the
parse result: an element with empty text parses as the empty object). -/
abbrev DocState := Option (Option JSVal)

/-- `getNextData()`: the parsed blob, or `null` both when the element is
missing (logged) and when `JSON.parse` throws (caught and warned) — the
exception never escapes to the caller. -/
def getNextData : DocState → Option JSVal
  | none => none
  | some none => none
  | some (some v) => some v

/-- `extractFromNextData()`: read the blob, bail out on `null`, classify. -/
def extractFromNextData (doc : DocState) : Option Extracted :=
  match getNextData doc with
  | none => none
  | some data => extractFromData data

/-- Either mode's summary, as dispatched by `buildSummaryFromNextData`. -/
inductive Summary where
  | classic : ClassicSummary → Summary
  | quiz : QuizSummary → Summary

/-- `buildSummaryFromNextData()`: extract, then dispatch on the `type` tag
to the matching normalizer; `null` when there is nothing to extract. -/
def buildSummaryFromNextData (doc : DocState) : Option Summary :=
  match extractFromNextData doc with
  | none => none
  | some e =>
    if e.type = "daily-quiz" then
      some (.quiz (buildDailyQuizSummary e.game e.user e.dailyQuizId))
    else if e.type = "classic" then
      some (.classic (buildClassicSummary e.game e.user))
    else none

/-- `storeSummary()`: build the summary and write it to
`chrome.storage.local` under `geoguessrLastGame` only when it is non-null.
The returned value is the storage write performed: `none` — no write
happens; `some s` — `s` is written (the callback only logs). -/
def storeSummary (doc : DocState) : Option Summary :=
  buildSummaryFromNextData doc

/-- The signature string of the change detector in `setupObserver`:
`(quizGame.quizId || "") + "|" + (quizGame.currentRound || "") + "|" +
(classicGame.token || "") + "|" + (classicGame.currentRoundNumber || "")`,
with JS string coercion on each part. -/
def signatureOf (data : JSVal) : String :=
  let pageProps := pagePropsOf data
  let quizGame := jsOr (pageProps.getField "quizGame") (.obj [])
  let classicGame := jsOr (classicCandidate data) (.obj [])
  jsToString (jsOr (quizGame.getField "quizId") (.str "")) ++ "|" ++
    jsToString (jsOr (quizGame.getField "currentRound") (.str "")) ++ "|" ++
    jsToString (jsOr (classicGame.getField "token") (.str "")) ++ "|" ++
    jsToString (jsOr (classicGame.getField "currentRoundNumber") (.str ""))

/-- One run of the `update` closure in `setupObserver`, observing document
state `doc` with `lastSignature` as carried state. The source's
`if (!data) return` covers both a `null` from `getNextData` and a blob
parsing to a falsy JSON value (`0`, `""`, `false`, `null`): in either case
the closure returns before touching `lastSignature` or storage. Result:
the new `lastSignature`, and the extraction performed — `none` when
`storeSummary` was not invoked (missing/unparsable/falsy blob, or
unchanged truthy signature), and `some w` when it ran and performed
storage write `w`. -/
def updateStep (lastSignature : Option String) (doc : DocState) :
    Option String × Option (Option Summary) :=
  match getNextData doc with
  | none => (lastSignature, none)
  | some data =>
    if !data.truthy then (lastSignature, none)
    else
      let sig := signatureOf data
      if sig ≠ "" ∧ lastSignature = some sig then (lastSignature, none)
      else (some sig, some (storeSummary doc))

/-! ## Concrete states used as counterexamples and witnesses -/

/-- A daily-quiz game whose raw rounds array is not in round-number order
(round 2 listed first) and whose `totalRounds` (5) exceeds the array
length (2); round 1 has a guess, round 2 does not. -/
def exQuizUnordered : JSVal := .obj
  [("totalRounds", .num 5),
   ("rounds", .arr [.obj [("roundNumber", .num 2)], .obj [("roundNumber", .num 1)]]),
   ("guesses", .arr [.obj [("roundNumber", .num 1), ("score", .num 100)]])]

/-- A daily-quiz game with three ordered rounds and a single guess, for
round 3, supplied out of correlation with array positions. -/
def exQuizSparse : JSVal := .obj
  [("rounds", .arr [.obj [("roundNumber", .num 1)], .obj [("roundNumber", .num 2)],
      .obj [("roundNumber", .num 3)]]),
   ("guesses", .arr [.obj [("roundNumber", .num 3), ("score", .num 77), ("distance", .num 5)]])]

/-- A classic game whose only round carries a non-numeric
`distanceInMeters`. -/
def exClassicStringDistance : JSVal := .obj
  [("rounds", .arr [.obj [("distanceInMeters", .str "far")]])]

/-- A classic game whose first player's `totalScore` is the non-numeric,
non-nullish string `"n/a"`. -/
def exClassicStringScore : JSVal := .obj
  [("players", .arr [.obj [("totalScore", .str "n/a")]])]

/-- Spec scenario A: a classic game, 5 rounds played of 5 total, first
player's score given as `{amount: 18432}`. -/
def exClassicScenarioA : JSVal := .obj
  [("players", .arr [.obj [("totalScore", .obj [("amount", .num 18432)])]]),
   ("currentRoundNumber", .num 5),
   ("rounds", .arr [.obj [], .obj [], .obj [], .obj [], .obj []])]

/-- Spec scenario D: a stored summary lacking numeric totals whose rounds
carry distances 1200, null, 3400 (and scores 1, null, 3). -/
def exSummaryD : JSVal := .obj
  [("rounds", .arr
    [.obj [("distance_m", .num 1200), ("score", .num 1)],
     .obj [("distance_m", .null), ("score", .num 2)],
     .obj [("distance_m", .num 3400), ("score", .num 3)]])]

/-- A stored summary with one round whose score is null and whose distance
is a non-numeric string. -/
def exSummaryBadRound : JSVal := .obj
  [("total_score", .num 9), ("total_distance_m", .num 7),
   ("rounds", .arr [.obj [("score", .null), ("distance_m", .str "x")]])]

/-- A parsed blob carrying a quiz game (and also a classic game object,
which the classifier must ignore). -/
def exDataQuiz : JSVal := .obj
  [("props", .obj [("pageProps", .obj
    [("quizGame", .obj [("quizId", .str "q1"), ("currentRound", .num 3)]),
     ("game", .obj [("token", .str "t1")]),
     ("dailyQuizId", .str "d1")])])]

/-- A parsed blob carrying only a classic game at the nested
`pageProps.data.game` location. -/
def exDataClassicNested : JSVal := .obj
  [("props", .obj [("pageProps", .obj
    [("data", .obj [("game", .obj
      [("token", .str "t2"), ("currentRoundNumber", .num 2)])])])])]

/-! ## Helper lemmas -/

/-- `mapIdxFrom` preserves length. -/
theorem length_mapIdxFrom {α β : Type} (f : α → Nat → β) :
    ∀ (l : List α) (i : Nat), (mapIdxFrom f l i).length = l.length
  | [], _ => rfl
  | _ :: xs, i => by simp [mapIdxFrom, length_mapIdxFrom f xs (i + 1)]

/-- Element `j` of `mapIdxFrom f l i` is `f` of element `j` of `l` at
index `i + j`. -/
theorem get?_mapIdxFrom {α β : Type} (f : α → Nat → β) :
    ∀ (l : List α) (i j : Nat),
      (mapIdxFrom f l i).get? j = (l.get? j).map (fun x => f x (i + j))
  | [], _, _ => by simp [mapIdxFrom]
  | x :: xs, i, 0 => by simp [mapIdxFrom]
  | x :: xs, i, j + 1 => by
      simpa [mapIdxFrom, Nat.add_assoc, Nat.add_comm 1 j]
        using get?_mapIdxFrom f xs (i + 1) j

/-- Truthy values are not nullish. -/
theorem truthy_not_nullish {v : JSVal} (h : v.truthy = true) :
    v.isNullish = false := by
  cases v <;> simp_all [JSVal.truthy, JSVal.isNullish]

/-- The detector's signature contains the three separators, so it is never
the empty string (the `sig &&` guard never fails). -/
theorem signatureOf_ne_empty (data : JSVal) : signatureOf data ≠ "" := by
  unfold signatureOf
  intro h
  have hlen := congrArg String.length h
  have hbar : ("|" : String).length = 1 := rfl
  have hemp : ("" : String).length = 0 := rfl
  simp only [String.length_append, hbar, hemp] at hlen
  omega

/-- `slice(0, N)` for a natural-number end clamps to the array length. -/
theorem jsSliceEnd_natCast (xs : List JSVal) (N : Nat) :
    jsSliceEnd xs (.num N) = xs.take (min N xs.length) := by
  have h1 : (if ((N : ℚ)) < 0 then ⌈(N : ℚ)⌉ else ⌊(N : ℚ)⌋) = (N : Int) := by
    rw [if_neg (not_lt.mpr (Nat.cast_nonneg N)), Int.floor_natCast]
  simp only [jsSliceEnd, h1]
  rw [if_neg (not_lt.mpr (Int.natCast_nonneg N))]
  rw [← Nat.cast_min, Int.toNat_natCast]

/-- The classic per-round mapper numbers its output by position. -/
theorem classicRound_round (x : JSVal) (k : Nat) :
    (classicRound x k).round = .num (k + 1) := rfl

/-- The quiz per-round mapper's round number is the raw entry's
`roundNumber` with positional fallback. -/
theorem quizRound_round (gm : List (String × JSVal)) (x : JSVal) (k : Nat) :
    (quizRound gm x k).round =
      jsCoalesce (x.getField "roundNumber") (.num (k + 1)) := rfl

/-- The `typeof` guard nulls out every non-number. -/
theorem numOrNull_of_not_number {v : JSVal} (h : v.isNumber = false) :
    numOrNull v = .null := by
  cases v <;> simp_all [JSVal.isNumber, numOrNull]

/-- The `typeof` guard passes numbers through unchanged. -/
theorem numOrNull_num (q : ℚ) : numOrNull (.num q) = .num q := rfl

/-- On a truthy parsed blob the `update` closure passes the `!data` guard
and reduces to the signature gate. -/
theorem updateStep_truthy (last : Option String) (d : JSVal)
    (h : d.truthy = true) :
    updateStep last (some (some d)) =
      if signatureOf d ≠ "" ∧ last = some (signatureOf d)
      then (last, none)
      else (some (signatureOf d), some (storeSummary (some (some d)))) := by
  show (if !d.truthy then (last, none)
      else if signatureOf d ≠ "" ∧ last = some (signatureOf d)
        then (last, none)
        else (some (signatureOf d), some (storeSummary (some (some d))))) = _
  rw [h]
  rfl

/-- Folding addition of `f` over a list from `init` is `init` plus the sum
of the mapped list. -/
theorem foldl_add_map_sum {α : Type} (f : α → ℚ) :
    ∀ (l : List α) (init : ℚ),
      l.foldl (fun acc x => acc + f x) init = init + (l.map f).sum
  | [], init => by simp
  | x :: xs, init => by
      simp [List.foldl_cons, foldl_add_map_sum f xs (init + f x), add_assoc]

/-! ## Claim theorems -/

/-- C1 counterexample: on a raw state whose rounds array lists round 2
before round 1 and declares `totalRounds` 5, the summary's rounds come out
in raw-array order (2 then 1 — not round-number ascending) and its length
is 2, not the declared total round count of 5. -/
theorem quiz_rounds_order_cex :
    (buildDailyQuizSummary exQuizUnordered (.obj []) .null).total_rounds = .num 5 ∧
    (buildDailyQuizSummary exQuizUnordered (.obj []) .null).rounds.map
      RoundOut.round = [.num 2, .num 1] ∧
    (buildDailyQuizSummary exQuizUnordered (.obj []) .null).rounds.length ≠ 5 := by
  refine ⟨by with_unfolding_all rfl, by with_unfolding_all rfl, ?_⟩
  rw [show (buildDailyQuizSummary exQuizUnordered (.obj []) .null).rounds.length = 2
    by with_unfolding_all rfl]
  decide

/-- C1 amended: the summary has exactly one entry per raw rounds-array
entry, in the raw array's order, each entry's round number read from the
entry itself with positional fallback (`roundNumber ?? idx+1`); it is the
guess lookup, not the round ordering, that tolerates out-of-order data. -/
theorem quiz_rounds_raw_order (quizGame user dq : JSVal) (rs : List JSVal)
    (hrounds : quizGame.getField "rounds" = .arr rs) :
    (buildDailyQuizSummary quizGame user dq).rounds.length = rs.length ∧
    ∀ j, ((buildDailyQuizSummary quizGame user dq).rounds.get? j).map
        RoundOut.round =
      (rs.get? j).map (fun r => jsCoalesce (r.getField "roundNumber") (.num (j + 1))) := by
  have hrs : (buildDailyQuizSummary quizGame user dq).rounds =
      mapIdxFrom (quizRound (guessMapOf (asArrList
        (jsOr (quizGame.getField "guesses") (.arr []))))) rs 0 := by
    simp only [buildDailyQuizSummary, hrounds,
      show (JSVal.arr rs).truthy = true from rfl, jsOr, if_true, asArrList]
  constructor
  · rw [hrs, length_mapIdxFrom]
  · intro j
    rw [hrs, get?_mapIdxFrom]
    cases hx : rs.get? j with
    | none => rfl
    | some x => simp [quizRound_round, Nat.zero_add]

/-- Witness for the amended C1: a quiz with three raw rounds and one guess
(for round 3) yields three summary rounds. -/
theorem quiz_rounds_raw_order_witness :
    (buildDailyQuizSummary exQuizSparse (.obj []) .null).rounds.length = 3 := by
  have h := (quiz_rounds_raw_order exQuizSparse (.obj []) .null
    [.obj [("roundNumber", .num 1)], .obj [("roundNumber", .num 2)],
     .obj [("roundNumber", .num 3)]] rfl).1
  exact h

/-- C2 counterexample: the classic normalizer passes the non-numeric
string `"far"` (a round's raw `distanceInMeters`) straight into the
summary round's `distance_m` — it is neither nulled nor numeric. -/
theorem numeric_passthrough_cex :
    (buildClassicSummary exClassicStringDistance (.obj [])).rounds.map
      RoundOut.distance_m = [.str "far"] ∧
    (JSVal.str "far").isNumber = false ∧ JSVal.str "far" ≠ .null := by
  refine ⟨by with_unfolding_all rfl, rfl, by simp⟩

/-- C2 amended: the daily-quiz normalizer's guess distance and score reads
are numerically guarded — any value that is not a number (absent included)
becomes null, never zero, and a numeric value passes through unchanged;
the classic normalizer's distance and score take the first non-nullish
candidate of their `??`-chains verbatim with no numeric check (null only
when every candidate is nullish, never zero); and coordinate reads are
copied through unchecked in both normalizers. -/
theorem numeric_policy_split :
    (∀ (gm : List (String × JSVal)) (r : JSVal) (i : Nat),
      ((optChain (quizGuessOf gm r i) "distance").isNumber = false →
        (quizRound gm r i).distance_m = .null) ∧
      (∀ q : ℚ, optChain (quizGuessOf gm r i) "distance" = .num q →
        (quizRound gm r i).distance_m = .num q) ∧
      ((optChain (quizGuessOf gm r i) "score").isNumber = false →
        (quizRound gm r i).score = .null) ∧
      (∀ q : ℚ, optChain (quizGuessOf gm r i) "score" = .num q →
        (quizRound gm r i).score = .num q)) ∧
    (∀ (rnd : JSVal) (i : Nat),
      ((optChain (classicGuessOf rnd) "distanceInMeters").isNullish = false →
        (classicRound rnd i).distance_m =
          optChain (classicGuessOf rnd) "distanceInMeters") ∧
      ((optChain (classicGuessOf rnd) "distanceInMeters").isNullish = true →
        (optChain (classicGuessOf rnd) "distance").isNullish = false →
        (classicRound rnd i).distance_m =
          optChain (classicGuessOf rnd) "distance") ∧
      ((optChain (classicGuessOf rnd) "distanceInMeters").isNullish = true →
        (optChain (classicGuessOf rnd) "distance").isNullish = true →
        (rnd.getField "distanceInMeters").isNullish = false →
        (classicRound rnd i).distance_m = rnd.getField "distanceInMeters") ∧
      ((optChain (classicGuessOf rnd) "distanceInMeters").isNullish = true →
        (optChain (classicGuessOf rnd) "distance").isNullish = true →
        (rnd.getField "distanceInMeters").isNullish = true →
        (classicRound rnd i).distance_m = .null)) ∧
    (∀ (rnd : JSVal) (i : Nat),
      ((optChain (classicGuessOf rnd) "roundScoreInPoints").isNullish = false →
        (classicRound rnd i).score =
          optChain (classicGuessOf rnd) "roundScoreInPoints") ∧
      ((optChain (classicGuessOf rnd) "roundScoreInPoints").isNullish = true →
        (optChain (classicGuessOf rnd) "scoreInPoints").isNullish = false →
        (classicRound rnd i).score =
          optChain (classicGuessOf rnd) "scoreInPoints") ∧
      ((optChain (classicGuessOf rnd) "roundScoreInPoints").isNullish = true →
        (optChain (classicGuessOf rnd) "scoreInPoints").isNullish = true →
        (rnd.getField "roundScoreInPoints").isNullish = false →
        (classicRound rnd i).score = rnd.getField "roundScoreInPoints") ∧
      ((optChain (classicGuessOf rnd) "roundScoreInPoints").isNullish = true →
        (optChain (classicGuessOf rnd) "scoreInPoints").isNullish = true →
        (rnd.getField "roundScoreInPoints").isNullish = true →
        (classicRound rnd i).score = .null)) ∧
    (∀ (rnd : JSVal) (i : Nat),
      (classicRound rnd i).correct_lat = rnd.getField "lat" ∧
      (classicRound rnd i).correct_lng = rnd.getField "lng") ∧
    (∀ (gm : List (String × JSVal)) (r : JSVal) (i : Nat),
      (quizRound gm r i).correct_lat =
        (jsOr (optChain (optChain (r.getField "question")
          "panoramaQuestionPayload") "panorama") (.obj [])).getField "lat" ∧
      (quizRound gm r i).correct_lng =
        (jsOr (optChain (optChain (r.getField "question")
          "panoramaQuestionPayload") "panorama") (.obj [])).getField "lng") := by
  refine ⟨?_, ?_, ?_, ?_, ?_⟩
  · intro gm r i
    refine ⟨?_, ?_, ?_, ?_⟩
    · intro h
      exact numOrNull_of_not_number h
    · intro q hq
      show numOrNull (optChain (quizGuessOf gm r i) "distance") = .num q
      rw [hq]
      exact numOrNull_num q
    · intro h
      exact numOrNull_of_not_number h
    · intro q hq
      show numOrNull (optChain (quizGuessOf gm r i) "score") = .num q
      rw [hq]
      exact numOrNull_num q
  · intro rnd i
    have hd : (classicRound rnd i).distance_m =
        jsCoalesce (optChain (classicGuessOf rnd) "distanceInMeters")
          (jsCoalesce (optChain (classicGuessOf rnd) "distance")
            (jsCoalesce (rnd.getField "distanceInMeters") .null)) := rfl
    refine ⟨?_, ?_, ?_, ?_⟩
    · intro h1
      rw [hd]
      simp [jsCoalesce, h1]
    · intro h1 h2
      rw [hd]
      simp [jsCoalesce, h1, h2]
    · intro h1 h2 h3
      rw [hd]
      simp [jsCoalesce, h1, h2, h3]
    · intro h1 h2 h3
      rw [hd]
      simp [jsCoalesce, h1, h2, h3]
  · intro rnd i
    have hs : (classicRound rnd i).score =
        jsCoalesce (optChain (classicGuessOf rnd) "roundScoreInPoints")
          (jsCoalesce (optChain (classicGuessOf rnd) "scoreInPoints")
            (jsCoalesce (rnd.getField "roundScoreInPoints") .null)) := rfl
    refine ⟨?_, ?_, ?_, ?_⟩
    · intro h1
      rw [hs]
      simp [jsCoalesce, h1]
    · intro h1 h2
      rw [hs]
      simp [jsCoalesce, h1, h2]
    · intro h1 h2 h3
      rw [hs]
      simp [jsCoalesce, h1, h2, h3]
    · intro h1 h2 h3
      rw [hs]
      simp [jsCoalesce, h1, h2, h3]
  · intro rnd i
    exact ⟨rfl, rfl⟩
  · intro gm r i
    exact ⟨rfl, rfl⟩

/-- Witness for the amended C2: an unguessed quiz round emits null (not
zero) distance and score; a classic round whose only distance candidate is
the string "far" emits it verbatim; a classic round with no score
candidates at all emits null, not zero. -/
theorem numeric_policy_split_witness :
    (quizRound [] (.obj []) 0).distance_m = .null ∧
    (quizRound [] (.obj []) 0).score = .null ∧
    (classicRound (.obj [("distanceInMeters", .str "far")]) 0).distance_m =
      .str "far" ∧
    (classicRound (.obj []) 0).score = .null := by
  refine ⟨(numeric_policy_split.1 [] (.obj []) 0).1 rfl,
    (numeric_policy_split.1 [] (.obj []) 0).2.2.1 rfl, ?_, ?_⟩
  · exact ((numeric_policy_split.2.1
      (.obj [("distanceInMeters", .str "far")]) 0).2.2.1 rfl rfl rfl).trans rfl
  · exact (numeric_policy_split.2.2.1 (.obj []) 0).2.2.2 rfl rfl rfl

/-- C4 counterexample: a first player whose `totalScore` is the
non-numeric, non-nullish string `"n/a"` becomes the summary's total score
verbatim — the chain takes the first present value with no numeric check,
so the total is neither numeric nor null. -/
theorem total_score_nonnumeric_cex :
    (buildClassicSummary exClassicStringScore (.obj [])).total_score = .str "n/a" ∧
    (JSVal.str "n/a").isNumber = false ∧ JSVal.str "n/a" ≠ .null := by
  refine ⟨by with_unfolding_all rfl, rfl, by simp⟩

/-- C4 amended: the summary's total score is the first non-nullish value
among the first player's `totalScore.amount`, `totalScore`, and `score`,
in that fixed order, and null when all three are nullish; no numeric type
check is applied to the chosen value. -/
theorem total_score_first_present (game user p : JSVal) (rest : List JSVal)
    (hplayers : game.getField "players" = .arr (p :: rest))
    (hp : p.truthy = true) :
    ((optChain (p.getField "totalScore") "amount").isNullish = false →
      (buildClassicSummary game user).total_score =
        optChain (p.getField "totalScore") "amount") ∧
    ((optChain (p.getField "totalScore") "amount").isNullish = true →
      (p.getField "totalScore").isNullish = false →
      (buildClassicSummary game user).total_score = p.getField "totalScore") ∧
    ((optChain (p.getField "totalScore") "amount").isNullish = true →
      (p.getField "totalScore").isNullish = true →
      (p.getField "score").isNullish = false →
      (buildClassicSummary game user).total_score = p.getField "score") ∧
    ((optChain (p.getField "totalScore") "amount").isNullish = true →
      (p.getField "totalScore").isNullish = true →
      (p.getField "score").isNullish = true →
      (buildClassicSummary game user).total_score = .null) := by
  have hpn : p.isNullish = false := truthy_not_nullish hp
  have hmy : (buildClassicSummary game user).total_score =
      jsCoalesce (optChain (p.getField "totalScore") "amount")
        (jsCoalesce (p.getField "totalScore")
          (jsCoalesce (p.getField "score") .null)) := by
    simp only [buildClassicSummary, hplayers,
      show (JSVal.arr (p :: rest)).truthy = true from rfl, jsOr, if_true,
      JSVal.idx, List.get?_cons_zero, Option.getD_some, hp]
    simp only [optChain, hpn, Bool.false_eq_true, if_false]
  refine ⟨?_, ?_, ?_, ?_⟩
  · intro h1
    rw [hmy]
    simp [jsCoalesce, h1]
  · intro h1 h2
    rw [hmy]
    simp [jsCoalesce, h1, h2]
  · intro h1 h2 h3
    rw [hmy]
    simp [jsCoalesce, h1, h2, h3]
  · intro h1 h2 h3
    rw [hmy]
    simp [jsCoalesce, h1, h2, h3]

/-- Witness for the amended C4 at spec scenario A: `{amount: 18432}` is
found at the first candidate and becomes the total score. -/
theorem total_score_first_present_witness :
    (buildClassicSummary exClassicScenarioA (.obj [])).total_score = .num 18432 := by
  have h := (total_score_first_present exClassicScenarioA (.obj [])
    (.obj [("totalScore", .obj [("amount", .num 18432)])]) [] rfl rfl).1 rfl
  rw [h]
  with_unfolding_all rfl

/-- C3: a classic raw state whose `currentRoundNumber` is a positive `N`
no larger than the raw rounds array's length yields exactly `N` summary
rounds, numbered 1..N in ascending order (the placeholder tail beyond `N`
is excluded). -/
theorem classic_rounds_numbering (game user : JSVal) (rs : List JSVal) (N : Nat)
    (hrounds : game.getField "rounds" = .arr rs)
    (hcrn : game.getField "currentRoundNumber" = .num N)
    (hpos : 0 < N) (hle : N ≤ rs.length) :
    (buildClassicSummary game user).rounds.length = N ∧
    ∀ j, j < N →
      ((buildClassicSummary game user).rounds.get? j).map RoundOut.round =
        some (.num (j + 1)) := by
  have hne : ((N : ℚ) ≠ 0) := Nat.cast_ne_zero.mpr (Nat.pos_iff_ne_zero.mp hpos)
  have hNt : (JSVal.num (N : ℚ)).truthy = true := by
    simp [JSVal.truthy, bne_iff_ne, hne]
  have hrs : (buildClassicSummary game user).rounds =
      mapIdxFrom classicRound (rs.take N) 0 := by
    simp only [buildClassicSummary, hrounds, hcrn,
      show (JSVal.arr rs).truthy = true from rfl, jsOr, hNt, if_true, asArrList]
    rw [jsSliceEnd_natCast, Nat.min_eq_left hle]
  constructor
  · rw [hrs, length_mapIdxFrom, List.length_take, Nat.min_eq_left hle]
  · intro j hj
    have hjlen : j < (rs.take N).length := by
      rw [List.length_take, Nat.min_eq_left hle]; exact hj
    have hx : (rs.take N).get? j = some ((rs.take N).get ⟨j, hjlen⟩) :=
      List.get?_eq_get hjlen
    rw [hrs, get?_mapIdxFrom, hx]
    simp [classicRound_round, Nat.zero_add]

/-- Witness for C3 at spec scenario A: five of five rounds played yields
five rounds numbered 1..5 (checked at positions 0 and 4). -/
theorem classic_rounds_numbering_witness :
    (buildClassicSummary exClassicScenarioA (.obj [])).rounds.length = 5 ∧
    ((buildClassicSummary exClassicScenarioA (.obj [])).rounds.get? 0).map
      RoundOut.round = some (.num 1) ∧
    ((buildClassicSummary exClassicScenarioA (.obj [])).rounds.get? 4).map
      RoundOut.round = some (.num 5) := by
  have h := classic_rounds_numbering exClassicScenarioA (.obj [])
    [.obj [], .obj [], .obj [], .obj [], .obj []] 5 rfl rfl (by decide) (by decide)
  refine ⟨h.1, ?_, ?_⟩
  · have h0 := h.2 0 (by decide)
    have hc : ((0 : Nat) : ℚ) + 1 = 1 := by norm_num
    rw [hc] at h0
    exact h0
  · have h4 := h.2 4 (by decide)
    have hc : ((4 : Nat) : ℚ) + 1 = 5 := by norm_num
    rw [hc] at h4
    exact h4

/-- C10: when both `currentRoundNumber` and `round` are absent or 0, the
truncation bound falls back to the raw array's length, so every raw rounds
entry (placeholders included) appears in the summary. -/
theorem classic_rounds_fallback_full (game user : JSVal) (rs : List JSVal)
    (hrounds : game.getField "rounds" = .arr rs)
    (hcr : game.getField "currentRoundNumber" = .undefined ∨
      game.getField "currentRoundNumber" = .num 0)
    (hrd : game.getField "round" = .undefined ∨ game.getField "round" = .num 0) :
    (buildClassicSummary game user).rounds = mapIdxFrom classicRound rs 0 ∧
    (buildClassicSummary game user).rounds.length = rs.length := by
  have hfalsy1 : (game.getField "currentRoundNumber").truthy = false := by
    rcases hcr with h | h <;> rw [h] <;> with_unfolding_all rfl
  have hfalsy2 : (game.getField "round").truthy = false := by
    rcases hrd with h | h <;> rw [h] <;> with_unfolding_all rfl
  have hrs : (buildClassicSummary game user).rounds = mapIdxFrom classicRound rs 0 := by
    simp only [buildClassicSummary, hrounds,
      show (JSVal.arr rs).truthy = true from rfl, jsOr, hfalsy1, hfalsy2,
      Bool.false_eq_true, if_false, if_true, asArrList]
    rw [jsSliceEnd_natCast, Nat.min_self, List.take_length]
  exact ⟨hrs, by rw [hrs, length_mapIdxFrom]⟩

/-- Witness for C10: a game with neither field and two placeholder rounds
keeps both entries. -/
theorem classic_rounds_fallback_full_witness :
    (buildClassicSummary (.obj [("rounds", .arr [.obj [], .obj []])])
      (.obj [])).rounds.length = 2 := by
  have h := classic_rounds_fallback_full (.obj [("rounds", .arr [.obj [], .obj []])])
    (.obj []) [.obj [], .obj []] rfl (Or.inl rfl) (Or.inl rfl)
  exact h.2

/-- C7: the raw state reader returns the parsed state when the embedded
element exists and holds valid JSON, and returns the absent result — never
throwing (the embedding is total) — both when the element is missing and
when its content is malformed; in both absent cases no storage write
occurs. -/
theorem raw_reader_absent_safe (doc : DocState) :
    (doc = none → getNextData doc = none ∧ storeSummary doc = none) ∧
    (doc = some none → getNextData doc = none ∧ storeSummary doc = none) ∧
    (∀ v, doc = some (some v) → getNextData doc = some v) := by
  refine ⟨?_, ?_, ?_⟩
  · rintro rfl; exact ⟨rfl, rfl⟩
  · rintro rfl; exact ⟨rfl, rfl⟩
  · rintro v rfl; rfl

/-- Witness for C7 at both absent document states. -/
theorem raw_reader_absent_safe_witness :
    getNextData (none : DocState) = none ∧
    storeSummary (none : DocState) = none ∧
    storeSummary (some none : DocState) = none :=
  ⟨((raw_reader_absent_safe none).1 rfl).1,
   ((raw_reader_absent_safe none).1 rfl).2,
   ((raw_reader_absent_safe (some none)).2.1 rfl).2⟩

/-- C5: for truthy parsed states (the `if (!data) return` guard keeps
everything else away from the detector without touching `lastSignature`
or storage), the `update` closure skips extraction and storage when the
observed signature equals the remembered one; on the first observation
(no remembered signature) it always extracts; hence two consecutive
observations with identical signatures extract and store exactly once
(the second performs nothing). -/
theorem change_detector_once (d1 d2 : JSVal) (last : Option String)
    (ht1 : d1.truthy = true) (ht2 : d2.truthy = true) :
    updateStep (some (signatureOf d1)) (some (some d1)) =
      (some (signatureOf d1), none) ∧
    ((updateStep none (some (some d1))).2 =
      some (storeSummary (some (some d1)))) ∧
    (signatureOf d1 = signatureOf d2 → last ≠ some (signatureOf d1) →
      (updateStep last (some (some d1))).2 = some (storeSummary (some (some d1))) ∧
      (updateStep (updateStep last (some (some d1))).1 (some (some d2))).2 = none) := by
  refine ⟨?_, ?_, ?_⟩
  · rw [updateStep_truthy _ _ ht1]
    rw [if_pos ⟨signatureOf_ne_empty d1, rfl⟩]
  · rw [updateStep_truthy _ _ ht1]
    rw [if_neg (fun h => Option.noConfusion h.2)]
  · intro hsig hlast
    have h1 : updateStep last (some (some d1)) =
        (some (signatureOf d1), some (storeSummary (some (some d1)))) := by
      rw [updateStep_truthy _ _ ht1]
      exact if_neg (fun h => hlast h.2)
    refine ⟨by rw [h1], ?_⟩
    rw [h1, updateStep_truthy _ _ ht2]
    rw [if_pos ⟨signatureOf_ne_empty d2, by rw [hsig]⟩]

/-- Witness for C5: observing the same (truthy) classic state twice from a
fresh detector extracts on the first observation and not on the second. -/
theorem change_detector_once_witness :
    (updateStep none (some (some exDataClassicNested))).2 =
      some (storeSummary (some (some exDataClassicNested))) ∧
    (updateStep (updateStep none (some (some exDataClassicNested))).1
      (some (some exDataClassicNested))).2 = none := by
  have h := (change_detector_once exDataClassicNested exDataClassicNested none
    rfl rfl).2.2 rfl (fun hc => Option.noConfusion hc)
  exact h

/-- C6: on a parsed state, extraction classifies as daily-quiz whenever the
quiz-game candidate under `pageProps` is truthy (even when a classic game
is also present), else as classic when the classic candidate (either
nesting location) is truthy, and otherwise yields the absent result. -/
theorem mode_classification (data : JSVal) :
    (((pagePropsOf data).getField "quizGame").truthy = true →
      extractFromNextData (some (some data)) = some
        { type := "daily-quiz"
          dailyQuizId := jsOr ((pagePropsOf data).getField "dailyQuizId") .null
          game := (pagePropsOf data).getField "quizGame"
          user := userOf data }) ∧
    (((pagePropsOf data).getField "quizGame").truthy = false →
      (classicCandidate data).truthy = true →
      extractFromNextData (some (some data)) = some
        { type := "classic"
          dailyQuizId := .undefined
          game := classicCandidate data
          user := userOf data }) ∧
    (((pagePropsOf data).getField "quizGame").truthy = false →
      (classicCandidate data).truthy = false →
      extractFromNextData (some (some data)) = none) := by
  have hred : extractFromNextData (some (some data)) = extractFromData data := rfl
  refine ⟨?_, ?_, ?_⟩
  · intro hq
    rw [hred]
    have e1 : jsOr ((pagePropsOf data).getField "quizGame") .null =
        (pagePropsOf data).getField "quizGame" := by simp [jsOr, hq]
    simp only [extractFromData, e1, hq, if_true]
  · intro hq hc
    rw [hred]
    have e1 : jsOr ((pagePropsOf data).getField "quizGame") .null = .null := by
      simp [jsOr, hq]
    have e2 : jsOr (classicCandidate data) .null = classicCandidate data := by
      simp [jsOr, hc]
    simp only [extractFromData, e1, e2]
    rw [show JSVal.null.truthy = false from rfl, hc]
    simp
  · intro hq hc
    rw [hred]
    have e1 : jsOr ((pagePropsOf data).getField "quizGame") .null = .null := by
      simp [jsOr, hq]
    have e2 : jsOr (classicCandidate data) .null = .null := by
      simp [jsOr, hc]
    simp only [extractFromData, e1, e2]
    rw [show JSVal.null.truthy = false from rfl]
    simp

/-- Witness for C6: a state holding both a quiz game and a classic game
classifies as daily-quiz; a state holding only the nested classic game
classifies as classic; the empty state classifies as absent. -/
theorem mode_classification_witness :
    (∃ e, extractFromNextData (some (some exDataQuiz)) = some e ∧
      e.type = "daily-quiz") ∧
    (∃ e, extractFromNextData (some (some exDataClassicNested)) = some e ∧
      e.type = "classic") ∧
    extractFromNextData (some (some (.obj []))) = none := by
  refine ⟨⟨_, (mode_classification exDataQuiz).1 rfl, rfl⟩,
    ⟨_, (mode_classification exDataClassicNested).2.1 rfl rfl, rfl⟩,
    (mode_classification (.obj [])).2.2 rfl rfl⟩

/-- C9: every payload round emits a non-numeric summary score as 0 and a
non-numeric summary distance as null, and the payload's rounds list is the
image of the stored summary's rounds under that per-round coercion. -/
theorem payload_round_coercion (summary : JSVal) (pn bs : String) (j : Nat)
    (r : JSVal) (hr : (roundsSource summary).get? j = some r) :
    (buildImportPayload summary pn bs).rounds.get? j = some (buildPayloadRound r) ∧
    (asNum (r.getField "score") = none → (buildPayloadRound r).score = 0) ∧
    (asNum (r.getField "distance_m") = none →
      (buildPayloadRound r).distance_m = none) := by
  refine ⟨?_, ?_, ?_⟩
  · rw [List.get?_eq_getElem?] at hr ⊢
    rw [show (buildImportPayload summary pn bs).rounds =
      (roundsSource summary).map buildPayloadRound from rfl]
    rw [List.getElem?_map, hr]
    rfl
  · intro h; simp [buildPayloadRound, h]
  · intro h; simp [buildPayloadRound, h]

/-- Witness for C9: a round with a null score and a string distance is
emitted with score 0 and distance null. -/
theorem payload_round_coercion_witness :
    (buildImportPayload exSummaryBadRound "p" "b").rounds.get? 0 =
      some (buildPayloadRound (.obj [("score", .null), ("distance_m", .str "x")])) ∧
    (buildPayloadRound (JSVal.obj [("score", .null), ("distance_m", .str "x")])).score = 0 ∧
    (buildPayloadRound (JSVal.obj [("score", .null), ("distance_m", .str "x")])).distance_m = none := by
  have h := payload_round_coercion exSummaryBadRound "p" "b" 0
    (.obj [("score", .null), ("distance_m", .str "x")]) rfl
  exact ⟨h.1, h.2.1 rfl, h.2.2 rfl⟩

/-- C8: when the stored summary has no numeric total score (resp. total
distance), the payload total is the sum over the summary's rounds of the
per-round value, with non-numeric values contributing zero. -/
theorem payload_totals_fallback (summary : JSVal) (pn bs : String) :
    (asNum (summary.getField "total_score") = none →
      (buildImportPayload summary pn bs).total_score =
        ((roundsSource summary).map (fun r => (asNum (r.getField "score")).getD 0)).sum) ∧
    (asNum (summary.getField "total_distance_m") = none →
      (buildImportPayload summary pn bs).total_distance_m =
        ((roundsSource summary).map (fun r => (asNum (r.getField "distance_m")).getD 0)).sum) := by
  constructor <;> intro h
  all_goals
    simp only [buildImportPayload, h, foldl_add_map_sum, List.map_map, zero_add]
    rfl

/-- Witness for C8 at spec scenario D: distances 1200, null, 3400 with no
summary totals sum to 4600 (and scores 1, 2, 3 to 6). -/
theorem payload_totals_fallback_witness :
    (buildImportPayload exSummaryD "p" "b").total_distance_m = 4600 ∧
    (buildImportPayload exSummaryD "p" "b").total_score = 6 := by
  have h := payload_totals_fallback exSummaryD "p" "b"
  constructor
  · rw [(h.2 rfl)]
    with_unfolding_all rfl
  · rw [(h.1 rfl)]
    with_unfolding_all rfl

end Geolead
